import Mathlib

/-!
Verification of the two example scripts of the socketcand examples repository
(`examples/print.py` and `examples/send.py`).

Each script is embedded as an executable trace semantics.  Every atomic
external action of the script (the bus constructor, `bus.recv`, `print`,
`can.Message` construction, `bus.send`, `time.sleep`, `bus.shutdown`) is an
event.  An oracle assigns each atomic action, in program order, one of three
results: normal completion, a delivered `KeyboardInterrupt`, or some other
exception.  Running a script against an oracle (and, for the receiving
script, a stream of inbound messages) yields the list of completed events
and a final process outcome.  Fuel bounds the number of loop iterations so
the runs are total; exhausting fuel means the loop is still running.
-/

namespace Socketcand

/-- Result of attempting one atomic action: it completes normally, a
`KeyboardInterrupt` is delivered at that point (the action does not take
effect), or some other exception is raised by it. -/
inductive ActionResult where
  | ok
  | kbdInt
  | otherExn
deriving DecidableEq

/-- A CAN message as constructed and consumed by the scripts, with the four
fields the scripts touch: `can.Message(arbitration_id=..., data=...,
is_extended_id=..., is_fd=...)`. -/
structure Message where
  arbitration_id : Nat
  data : List Nat
  is_extended_id : Bool
  is_fd : Bool
deriving DecidableEq

/-- Observable events of a script run. -/
inductive Event where
  | busConstruct (iface : String) (host : String) (port : Nat) (channel : String)
  | recv (m : Message)
  | printMsg (m : Message)
  | construct (m : Message)
  | send (m : Message)
  | sleep (secs : Nat)
  | shutdown
deriving DecidableEq

/-- How the `while True:` loop inside the `try` block ended. -/
inductive LoopOutcome where
  | interrupted
  | exn
  | outOfFuel
deriving DecidableEq

/-- Final outcome of a whole script run. -/
inductive Outcome where
  | exitAfterKbd
  | unhandledKbd
  | unhandledExn
  | running
deriving DecidableEq

/-- The fixed message built on every iteration of `send.py`:
`can.Message(arbitration_id=0xc0ffee, data=[0, 1, 2, 3], is_extended_id=True, is_fd=True)`
(fields in declaration order: arbitration id, data, extended-id flag, FD flag). -/
def sendMsg : Message :=
  ⟨0xc0ffee, [0, 1, 2, 3], true, true⟩

/-- The loop body of `send.py`, iterated: each iteration constructs the fixed
message, prints it, sends it and sleeps one second, consuming four oracle
indices starting at `k`; a `KeyboardInterrupt` or other exception at any of
those points stops the loop there, with the event of the failed action not
performed. -/
def sendIter (oracle : Nat → ActionResult) (fuel k : Nat) : List Event × LoopOutcome :=
  match fuel with
  | 0 => ([], LoopOutcome.outOfFuel)
  | fuel' + 1 =>
    match oracle k with
    | ActionResult.kbdInt => ([], LoopOutcome.interrupted)
    | ActionResult.otherExn => ([], LoopOutcome.exn)
    | ActionResult.ok =>
      match oracle (k + 1) with
      | ActionResult.kbdInt => ([Event.construct sendMsg], LoopOutcome.interrupted)
      | ActionResult.otherExn => ([Event.construct sendMsg], LoopOutcome.exn)
      | ActionResult.ok =>
        match oracle (k + 2) with
        | ActionResult.kbdInt =>
          ([Event.construct sendMsg, Event.printMsg sendMsg], LoopOutcome.interrupted)
        | ActionResult.otherExn =>
          ([Event.construct sendMsg, Event.printMsg sendMsg], LoopOutcome.exn)
        | ActionResult.ok =>
          match oracle (k + 3) with
          | ActionResult.kbdInt =>
            ([Event.construct sendMsg, Event.printMsg sendMsg, Event.send sendMsg],
              LoopOutcome.interrupted)
          | ActionResult.otherExn =>
            ([Event.construct sendMsg, Event.printMsg sendMsg, Event.send sendMsg],
              LoopOutcome.exn)
          | ActionResult.ok =>
            let rest := sendIter oracle fuel' (k + 4)
            (Event.construct sendMsg :: Event.printMsg sendMsg :: Event.send sendMsg ::
              Event.sleep 1 :: rest.1, rest.2)

/-- The loop body of `print.py`, iterated: each iteration receives the next
message of `stream` and prints it, consuming two oracle indices starting at
`k`. -/
def recvIter (oracle : Nat → ActionResult) (stream : Nat → Message) (fuel k : Nat) :
    List Event × LoopOutcome :=
  match fuel with
  | 0 => ([], LoopOutcome.outOfFuel)
  | fuel' + 1 =>
    match oracle k with
    | ActionResult.kbdInt => ([], LoopOutcome.interrupted)
    | ActionResult.otherExn => ([], LoopOutcome.exn)
    | ActionResult.ok =>
      match oracle (k + 1) with
      | ActionResult.kbdInt => ([Event.recv (stream k)], LoopOutcome.interrupted)
      | ActionResult.otherExn => ([Event.recv (stream k)], LoopOutcome.exn)
      | ActionResult.ok =>
        let rest := recvIter oracle stream fuel' (k + 2)
        (Event.recv (stream k) :: Event.printMsg (stream k) :: rest.1, rest.2)

/-- The whole of `send.py`: construct the bus (oracle index 0, outside the
`try`), then run the send loop; a `KeyboardInterrupt` from inside the loop is
caught and answered by exactly one `bus.shutdown()`, any other exception
propagates unhandled, and an interrupt during bus construction is unhandled. -/
def sendRun (oracle : Nat → ActionResult) (fuel : Nat) : List Event × Outcome :=
  match oracle 0 with
  | ActionResult.kbdInt => ([], Outcome.unhandledKbd)
  | ActionResult.otherExn => ([], Outcome.unhandledExn)
  | ActionResult.ok =>
    let r := sendIter oracle fuel 1
    match r.2 with
    | LoopOutcome.interrupted =>
      (Event.busConstruct "socketcand" "192.168.0.16" 29536 "can0" :: r.1 ++ [Event.shutdown],
        Outcome.exitAfterKbd)
    | LoopOutcome.exn =>
      (Event.busConstruct "socketcand" "192.168.0.16" 29536 "can0" :: r.1, Outcome.unhandledExn)
    | LoopOutcome.outOfFuel =>
      (Event.busConstruct "socketcand" "192.168.0.16" 29536 "can0" :: r.1, Outcome.running)

/-- The whole of `print.py`: construct the bus (oracle index 0, outside the
`try`), then run the receive loop, with the same interrupt and exception
structure as `sendRun`. -/
def printRun (oracle : Nat → ActionResult) (stream : Nat → Message) (fuel : Nat) :
    List Event × Outcome :=
  match oracle 0 with
  | ActionResult.kbdInt => ([], Outcome.unhandledKbd)
  | ActionResult.otherExn => ([], Outcome.unhandledExn)
  | ActionResult.ok =>
    let r := recvIter oracle stream fuel 1
    match r.2 with
    | LoopOutcome.interrupted =>
      (Event.busConstruct "socketcand" "192.168.0.16" 29536 "can0" :: r.1 ++ [Event.shutdown],
        Outcome.exitAfterKbd)
    | LoopOutcome.exn =>
      (Event.busConstruct "socketcand" "192.168.0.16" 29536 "can0" :: r.1, Outcome.unhandledExn)
    | LoopOutcome.outOfFuel =>
      (Event.busConstruct "socketcand" "192.168.0.16" 29536 "can0" :: r.1, Outcome.running)

/-- The payload-length constraint of the CAN frame model: at most 64 bytes
with the FD flag set, at most 8 bytes otherwise. -/
def ValidPayload (m : Message) : Prop :=
  (m.is_fd = true → m.data.length ≤ 64) ∧ (m.is_fd = false → m.data.length ≤ 8)

instance (m : Message) : Decidable (ValidPayload m) := by
  unfold ValidPayload
  infer_instance

/-- Shapes of the traces the send loop can produce: a whole number of
complete iterations `construct, print, send, sleep 1`, followed by a prefix
of one more iteration when the loop is cut short. -/
inductive SendShape : List Event → Prop
  | nil : SendShape []
  | part1 : SendShape [Event.construct sendMsg]
  | part2 : SendShape [Event.construct sendMsg, Event.printMsg sendMsg]
  | part3 : SendShape [Event.construct sendMsg, Event.printMsg sendMsg, Event.send sendMsg]
  | iter (tr : List Event) : SendShape tr →
      SendShape (Event.construct sendMsg :: Event.printMsg sendMsg :: Event.send sendMsg ::
        Event.sleep 1 :: tr)

/-- Shapes of the traces the receive loop can produce: each received message
is printed right away, with at most one trailing received-but-not-yet-printed
message when the loop is cut short between the two. -/
inductive RecvShape : List Event → Prop
  | nil : RecvShape []
  | part1 (m : Message) : RecvShape [Event.recv m]
  | iter (m : Message) (tr : List Event) : RecvShape tr →
      RecvShape (Event.recv m :: Event.printMsg m :: tr)

theorem sendIter_shape (oracle : Nat → ActionResult) (fuel k : Nat) :
    SendShape (sendIter oracle fuel k).1 := by
  induction fuel generalizing k with
  | zero => exact SendShape.nil
  | succ fuel' ih =>
    unfold sendIter
    cases oracle k with
    | kbdInt => exact SendShape.nil
    | otherExn => exact SendShape.nil
    | ok =>
      cases oracle (k + 1) with
      | kbdInt => exact SendShape.part1
      | otherExn => exact SendShape.part1
      | ok =>
        cases oracle (k + 2) with
        | kbdInt => exact SendShape.part2
        | otherExn => exact SendShape.part2
        | ok =>
          cases oracle (k + 3) with
          | kbdInt => exact SendShape.part3
          | otherExn => exact SendShape.part3
          | ok => exact SendShape.iter _ (ih (k + 4))

theorem recvIter_shape (oracle : Nat → ActionResult) (stream : Nat → Message) (fuel k : Nat) :
    RecvShape (recvIter oracle stream fuel k).1 := by
  induction fuel generalizing k with
  | zero => exact RecvShape.nil
  | succ fuel' ih =>
    unfold recvIter
    cases oracle k with
    | kbdInt => exact RecvShape.nil
    | otherExn => exact RecvShape.nil
    | ok =>
      cases oracle (k + 1) with
      | kbdInt => exact RecvShape.part1 _
      | otherExn => exact RecvShape.part1 _
      | ok => exact RecvShape.iter _ _ (ih (k + 2))

/-- Every event of a send-loop trace is one of the four loop-body events, all
about the fixed message. -/
theorem sendIter_mem (oracle : Nat → ActionResult) (fuel k : Nat) :
    ∀ e ∈ (sendIter oracle fuel k).1,
      e = Event.construct sendMsg ∨ e = Event.printMsg sendMsg ∨
      e = Event.send sendMsg ∨ e = Event.sleep 1 := by
  induction fuel generalizing k with
  | zero => intro e he; simp [sendIter] at he
  | succ fuel' ih =>
    intro e he
    unfold sendIter at he
    cases hk : oracle k <;> rw [hk] at he
    case kbdInt => simp at he
    case otherExn => simp at he
    case ok =>
    cases h1 : oracle (k + 1) <;> rw [h1] at he
    case kbdInt => rw [List.mem_singleton] at he; exact Or.inl he
    case otherExn => rw [List.mem_singleton] at he; exact Or.inl he
    case ok =>
    cases h2 : oracle (k + 2) <;> rw [h2] at he
    case kbdInt =>
      simp only [List.mem_cons, List.not_mem_nil, or_false] at he
      rcases he with rfl | rfl
      · exact Or.inl rfl
      · exact Or.inr (Or.inl rfl)
    case otherExn =>
      simp only [List.mem_cons, List.not_mem_nil, or_false] at he
      rcases he with rfl | rfl
      · exact Or.inl rfl
      · exact Or.inr (Or.inl rfl)
    case ok =>
    cases h3 : oracle (k + 3) <;> rw [h3] at he
    case kbdInt =>
      simp only [List.mem_cons, List.not_mem_nil, or_false] at he
      rcases he with rfl | rfl | rfl
      · exact Or.inl rfl
      · exact Or.inr (Or.inl rfl)
      · exact Or.inr (Or.inr (Or.inl rfl))
    case otherExn =>
      simp only [List.mem_cons, List.not_mem_nil, or_false] at he
      rcases he with rfl | rfl | rfl
      · exact Or.inl rfl
      · exact Or.inr (Or.inl rfl)
      · exact Or.inr (Or.inr (Or.inl rfl))
    case ok =>
      simp only [List.mem_cons] at he
      rcases he with rfl | rfl | rfl | rfl | he
      · exact Or.inl rfl
      · exact Or.inr (Or.inl rfl)
      · exact Or.inr (Or.inr (Or.inl rfl))
      · exact Or.inr (Or.inr (Or.inr rfl))
      · exact ih (k + 4) e he

/-- Every event of a receive-loop trace is a receive or a print of a message
of the stream. -/
theorem recvIter_mem (oracle : Nat → ActionResult) (stream : Nat → Message) (fuel k : Nat) :
    ∀ e ∈ (recvIter oracle stream fuel k).1,
      (∃ j, e = Event.recv (stream j)) ∨ (∃ j, e = Event.printMsg (stream j)) := by
  induction fuel generalizing k with
  | zero => intro e he; simp [recvIter] at he
  | succ fuel' ih =>
    intro e he
    unfold recvIter at he
    cases hk : oracle k <;> rw [hk] at he
    case kbdInt => simp at he
    case otherExn => simp at he
    case ok =>
    cases h1 : oracle (k + 1) <;> rw [h1] at he
    case kbdInt => rw [List.mem_singleton] at he; exact Or.inl ⟨k, he⟩
    case otherExn => rw [List.mem_singleton] at he; exact Or.inl ⟨k, he⟩
    case ok =>
      simp only [List.mem_cons] at he
      rcases he with rfl | rfl | he
      · exact Or.inl ⟨k, rfl⟩
      · exact Or.inr ⟨k, rfl⟩
      · exact ih (k + 2) e he

/-- An oracle that never raises keeps the send loop running to fuel
exhaustion. -/
theorem sendIter_allOk (oracle : Nat → ActionResult) (fuel k : Nat)
    (h : ∀ j, oracle j = ActionResult.ok) :
    (sendIter oracle fuel k).2 = LoopOutcome.outOfFuel := by
  induction fuel generalizing k with
  | zero => rfl
  | succ fuel' ih =>
    unfold sendIter
    rw [h k, h (k + 1), h (k + 2), h (k + 3)]
    exact ih (k + 4)

/-- An oracle that never raises keeps the receive loop running to fuel
exhaustion. -/
theorem recvIter_allOk (oracle : Nat → ActionResult) (stream : Nat → Message) (fuel k : Nat)
    (h : ∀ j, oracle j = ActionResult.ok) :
    (recvIter oracle stream fuel k).2 = LoopOutcome.outOfFuel := by
  induction fuel generalizing k with
  | zero => rfl
  | succ fuel' ih =>
    unfold recvIter
    rw [h k, h (k + 1)]
    exact ih (k + 2)

theorem sendRun_kbd (oracle : Nat → ActionResult) (fuel : Nat)
    (h0 : oracle 0 = ActionResult.kbdInt) :
    sendRun oracle fuel = ([], Outcome.unhandledKbd) := by
  unfold sendRun; rw [h0]

theorem sendRun_exn0 (oracle : Nat → ActionResult) (fuel : Nat)
    (h0 : oracle 0 = ActionResult.otherExn) :
    sendRun oracle fuel = ([], Outcome.unhandledExn) := by
  unfold sendRun; rw [h0]

theorem sendRun_interrupted (oracle : Nat → ActionResult) (fuel : Nat)
    (h0 : oracle 0 = ActionResult.ok)
    (hl : (sendIter oracle fuel 1).2 = LoopOutcome.interrupted) :
    sendRun oracle fuel =
      (Event.busConstruct "socketcand" "192.168.0.16" 29536 "can0" ::
        (sendIter oracle fuel 1).1 ++ [Event.shutdown], Outcome.exitAfterKbd) := by
  unfold sendRun; rw [h0]; dsimp only; rw [hl]

theorem sendRun_exn (oracle : Nat → ActionResult) (fuel : Nat)
    (h0 : oracle 0 = ActionResult.ok)
    (hl : (sendIter oracle fuel 1).2 = LoopOutcome.exn) :
    sendRun oracle fuel =
      (Event.busConstruct "socketcand" "192.168.0.16" 29536 "can0" ::
        (sendIter oracle fuel 1).1, Outcome.unhandledExn) := by
  unfold sendRun; rw [h0]; dsimp only; rw [hl]

theorem sendRun_outOfFuel (oracle : Nat → ActionResult) (fuel : Nat)
    (h0 : oracle 0 = ActionResult.ok)
    (hl : (sendIter oracle fuel 1).2 = LoopOutcome.outOfFuel) :
    sendRun oracle fuel =
      (Event.busConstruct "socketcand" "192.168.0.16" 29536 "can0" ::
        (sendIter oracle fuel 1).1, Outcome.running) := by
  unfold sendRun; rw [h0]; dsimp only; rw [hl]

theorem printRun_kbd (oracle : Nat → ActionResult) (stream : Nat → Message) (fuel : Nat)
    (h0 : oracle 0 = ActionResult.kbdInt) :
    printRun oracle stream fuel = ([], Outcome.unhandledKbd) := by
  unfold printRun; rw [h0]

theorem printRun_exn0 (oracle : Nat → ActionResult) (stream : Nat → Message) (fuel : Nat)
    (h0 : oracle 0 = ActionResult.otherExn) :
    printRun oracle stream fuel = ([], Outcome.unhandledExn) := by
  unfold printRun; rw [h0]

theorem printRun_interrupted (oracle : Nat → ActionResult) (stream : Nat → Message) (fuel : Nat)
    (h0 : oracle 0 = ActionResult.ok)
    (hl : (recvIter oracle stream fuel 1).2 = LoopOutcome.interrupted) :
    printRun oracle stream fuel =
      (Event.busConstruct "socketcand" "192.168.0.16" 29536 "can0" ::
        (recvIter oracle stream fuel 1).1 ++ [Event.shutdown], Outcome.exitAfterKbd) := by
  unfold printRun; rw [h0]; dsimp only; rw [hl]

theorem printRun_exn (oracle : Nat → ActionResult) (stream : Nat → Message) (fuel : Nat)
    (h0 : oracle 0 = ActionResult.ok)
    (hl : (recvIter oracle stream fuel 1).2 = LoopOutcome.exn) :
    printRun oracle stream fuel =
      (Event.busConstruct "socketcand" "192.168.0.16" 29536 "can0" ::
        (recvIter oracle stream fuel 1).1, Outcome.unhandledExn) := by
  unfold printRun; rw [h0]; dsimp only; rw [hl]

theorem printRun_outOfFuel (oracle : Nat → ActionResult) (stream : Nat → Message) (fuel : Nat)
    (h0 : oracle 0 = ActionResult.ok)
    (hl : (recvIter oracle stream fuel 1).2 = LoopOutcome.outOfFuel) :
    printRun oracle stream fuel =
      (Event.busConstruct "socketcand" "192.168.0.16" 29536 "can0" ::
        (recvIter oracle stream fuel 1).1, Outcome.running) := by
  unfold printRun; rw [h0]; dsimp only; rw [hl]

/-- Any event of a full `send.py` run is the bus construction, a loop event,
or the shutdown. -/
theorem sendRun_mem (oracle : Nat → ActionResult) (fuel : Nat) (e : Event)
    (he : e ∈ (sendRun oracle fuel).1) :
    e = Event.busConstruct "socketcand" "192.168.0.16" 29536 "can0" ∨
      e ∈ (sendIter oracle fuel 1).1 ∨ e = Event.shutdown := by
  cases h0 : oracle 0
  case kbdInt => rw [sendRun_kbd oracle fuel h0] at he; simp at he
  case otherExn => rw [sendRun_exn0 oracle fuel h0] at he; simp at he
  case ok =>
    cases hl : (sendIter oracle fuel 1).2
    case interrupted =>
      rw [sendRun_interrupted oracle fuel h0 hl] at he
      simp only [List.mem_cons, List.mem_append, List.mem_singleton] at he
      tauto
    case exn =>
      rw [sendRun_exn oracle fuel h0 hl] at he
      simp only [List.mem_cons] at he
      tauto
    case outOfFuel =>
      rw [sendRun_outOfFuel oracle fuel h0 hl] at he
      simp only [List.mem_cons] at he
      tauto

/-- Any event of a full `print.py` run is the bus construction, a loop event,
or the shutdown. -/
theorem printRun_mem (oracle : Nat → ActionResult) (stream : Nat → Message) (fuel : Nat)
    (e : Event) (he : e ∈ (printRun oracle stream fuel).1) :
    e = Event.busConstruct "socketcand" "192.168.0.16" 29536 "can0" ∨
      e ∈ (recvIter oracle stream fuel 1).1 ∨ e = Event.shutdown := by
  cases h0 : oracle 0
  case kbdInt => rw [printRun_kbd oracle stream fuel h0] at he; simp at he
  case otherExn => rw [printRun_exn0 oracle stream fuel h0] at he; simp at he
  case ok =>
    cases hl : (recvIter oracle stream fuel 1).2
    case interrupted =>
      rw [printRun_interrupted oracle stream fuel h0 hl] at he
      simp only [List.mem_cons, List.mem_append, List.mem_singleton] at he
      tauto
    case exn =>
      rw [printRun_exn oracle stream fuel h0 hl] at he
      simp only [List.mem_cons] at he
      tauto
    case outOfFuel =>
      rw [printRun_outOfFuel oracle stream fuel h0 hl] at he
      simp only [List.mem_cons] at he
      tauto

/-- When the bus constructor completes, every loop event appears in the full
run's trace. -/
theorem sendRun_mem_of_iter (oracle : Nat → ActionResult) (fuel : Nat)
    (h0 : oracle 0 = ActionResult.ok) (e : Event)
    (he : e ∈ (sendIter oracle fuel 1).1) : e ∈ (sendRun oracle fuel).1 := by
  cases hl : (sendIter oracle fuel 1).2
  case interrupted =>
    rw [sendRun_interrupted oracle fuel h0 hl]
    simp only [List.mem_cons, List.mem_append]
    tauto
  case exn =>
    rw [sendRun_exn oracle fuel h0 hl]
    simp only [List.mem_cons]
    tauto
  case outOfFuel =>
    rw [sendRun_outOfFuel oracle fuel h0 hl]
    simp only [List.mem_cons]
    tauto

/-- A sent message of the send loop is the fixed message. -/
theorem sendIter_send_eq (oracle : Nat → ActionResult) (fuel k : Nat) (m : Message)
    (hm : Event.send m ∈ (sendIter oracle fuel k).1) : m = sendMsg := by
  rcases sendIter_mem oracle fuel k _ hm with h | h | h | h
  · exact Event.noConfusion h
  · exact Event.noConfusion h
  · injection h
  · exact Event.noConfusion h

/-- A printed message of the send loop is the fixed message. -/
theorem sendIter_print_eq (oracle : Nat → ActionResult) (fuel k : Nat) (m : Message)
    (hm : Event.printMsg m ∈ (sendIter oracle fuel k).1) : m = sendMsg := by
  rcases sendIter_mem oracle fuel k _ hm with h | h | h | h
  · exact Event.noConfusion h
  · injection h
  · exact Event.noConfusion h
  · exact Event.noConfusion h

/-- A send-loop trace that contains a send also contains the construction of
the fixed message. -/
theorem sendShape_construct {tr : List Event} (h : SendShape tr)
    (hs : Event.send sendMsg ∈ tr) : Event.construct sendMsg ∈ tr := by
  induction h with
  | nil => simp at hs
  | part1 => simp
  | part2 => simp
  | part3 => simp
  | iter tr0 h0 ih => simp

theorem sendIter_no_shutdown (oracle : Nat → ActionResult) (fuel k : Nat) :
    Event.shutdown ∉ (sendIter oracle fuel k).1 := by
  intro h
  rcases sendIter_mem oracle fuel k _ h with h' | h' | h' | h' <;> exact Event.noConfusion h'

theorem recvIter_no_shutdown (oracle : Nat → ActionResult) (stream : Nat → Message)
    (fuel k : Nat) : Event.shutdown ∉ (recvIter oracle stream fuel k).1 := by
  intro h
  rcases recvIter_mem oracle stream fuel k _ h with ⟨j, h'⟩ | ⟨j, h'⟩ <;> exact Event.noConfusion h'

theorem recvIter_no_send (oracle : Nat → ActionResult) (stream : Nat → Message)
    (fuel k : Nat) (m : Message) : Event.send m ∉ (recvIter oracle stream fuel k).1 := by
  intro h
  rcases recvIter_mem oracle stream fuel k _ h with ⟨j, h'⟩ | ⟨j, h'⟩ <;> exact Event.noConfusion h'

theorem sendIter_no_bus (oracle : Nat → ActionResult) (fuel k : Nat)
    (i h : String) (p : Nat) (c : String) :
    Event.busConstruct i h p c ∉ (sendIter oracle fuel k).1 := by
  intro hm
  rcases sendIter_mem oracle fuel k _ hm with h' | h' | h' | h' <;> exact Event.noConfusion h'

theorem recvIter_no_bus (oracle : Nat → ActionResult) (stream : Nat → Message) (fuel k : Nat)
    (i h : String) (p : Nat) (c : String) :
    Event.busConstruct i h p c ∉ (recvIter oracle stream fuel k).1 := by
  intro hm
  rcases recvIter_mem oracle stream fuel k _ hm with ⟨j, h'⟩ | ⟨j, h'⟩ <;>
    exact Event.noConfusion h'

/-- In a send-loop trace, any send sits right after the print of the same
message. -/
theorem sendShape_get {tr : List Event} (h : SendShape tr) :
    ∀ i m, tr.get? i = some (Event.send m) →
      1 ≤ i ∧ tr.get? (i - 1) = some (Event.printMsg m) := by
  induction h with
  | nil => intro i m hi; simp at hi
  | part1 =>
    intro i m hi
    rcases i with _ | i <;> simp at hi
  | part2 =>
    intro i m hi
    rcases i with _ | _ | i <;> simp at hi
  | part3 =>
    intro i m hi
    rcases i with _ | _ | _ | i <;> simp at hi
    subst hi
    exact ⟨by omega, rfl⟩
  | iter tr0 h0 ih =>
    intro i m hi
    rcases i with _ | _ | _ | _ | i
    · simp at hi
    · simp at hi
    · simp only [List.get?_cons_succ, List.get?_cons_zero, Option.some.injEq] at hi
      injection hi with hm
      subst hm
      exact ⟨by omega, rfl⟩
    · simp at hi
    · simp only [List.get?_cons_succ] at hi
      obtain ⟨h1, h2⟩ := ih i m hi
      refine ⟨by omega, ?_⟩
      have : i + 4 - 1 = (i - 1) + 4 := by omega
      rw [this]
      simpa using h2

/-- C1: every frame passed to `bus.send` by `send.py` has arbitration ID
`0xC0FFEE`, extended-ID flag true, FD flag true, and payload exactly
`[0, 1, 2, 3]`; a message with exactly these fields is constructed in the
run's trace. -/
theorem send_loop_frame_fixed (oracle : Nat → ActionResult) (fuel : Nat) (m : Message)
    (hm : Event.send m ∈ (sendRun oracle fuel).1) :
    m.arbitration_id = 0xc0ffee ∧ m.is_extended_id = true ∧ m.is_fd = true ∧
      m.data = [0, 1, 2, 3] ∧ Event.construct m ∈ (sendRun oracle fuel).1 := by
  cases h0 : oracle 0
  case kbdInt => rw [sendRun_kbd oracle fuel h0] at hm; simp at hm
  case otherExn => rw [sendRun_exn0 oracle fuel h0] at hm; simp at hm
  case ok =>
    rcases sendRun_mem oracle fuel _ hm with h | h | h
    · exact Event.noConfusion h
    · have hms := sendIter_send_eq oracle fuel 1 m h
      subst hms
      refine ⟨rfl, rfl, rfl, rfl, ?_⟩
      exact sendRun_mem_of_iter oracle fuel h0 _
        (sendShape_construct (sendIter_shape oracle fuel 1) h)
    · exact Event.noConfusion h

theorem send_loop_frame_fixed_witness :
    Event.send sendMsg ∈ (sendRun (fun _ => ActionResult.ok) 1).1 ∧
      sendMsg.arbitration_id = 0xc0ffee ∧ sendMsg.is_extended_id = true ∧
      sendMsg.is_fd = true ∧ sendMsg.data = [0, 1, 2, 3] ∧
      Event.construct sendMsg ∈ (sendRun (fun _ => ActionResult.ok) 1).1 :=
  ⟨by decide, send_loop_frame_fixed (fun _ => ActionResult.ok) 1 sendMsg (by decide)⟩

/-- C5: each iteration of the send loop performs, in this order, construct
the fixed frame, render it, transmit it, then sleep one second; a trace cut
short anywhere still respects that order, so the rendering of a frame always
precedes its transmission. -/
theorem send_loop_order (oracle : Nat → ActionResult) (fuel k : Nat) :
    SendShape (sendIter oracle fuel k).1 :=
  sendIter_shape oracle fuel k

/-- C10: whenever the send loop's trace transmits a message at position `i`,
position `i - 1` renders that very message, so the printed frame and the
transmitted frame of an iteration agree in every field. -/
theorem send_prints_what_it_sends (oracle : Nat → ActionResult) (fuel k i : Nat) (m : Message)
    (hi : ((sendIter oracle fuel k).1).get? i = some (Event.send m)) :
    1 ≤ i ∧ ((sendIter oracle fuel k).1).get? (i - 1) = some (Event.printMsg m) :=
  sendShape_get (sendIter_shape oracle fuel k) i m hi

theorem send_prints_what_it_sends_witness :
    1 ≤ 2 ∧
      ((sendIter (fun _ => ActionResult.ok) 1 1).1).get? (2 - 1) =
        some (Event.printMsg sendMsg) :=
  send_prints_what_it_sends (fun _ => ActionResult.ok) 1 1 2 sendMsg (by decide)

/-- A printed message of the receive loop is one of the stream's messages. -/
theorem recvIter_print_stream (oracle : Nat → ActionResult) (stream : Nat → Message)
    (fuel k : Nat) (m : Message)
    (hm : Event.printMsg m ∈ (recvIter oracle stream fuel k).1) : ∃ j, m = stream j := by
  rcases recvIter_mem oracle stream fuel k _ hm with ⟨j, h'⟩ | ⟨j, h'⟩
  · exact Event.noConfusion h'
  · exact ⟨j, by injection h'⟩

/-- In a receive-loop trace, between any receive and any later receive, the
earlier received message is printed. -/
theorem recvShape_between {tr : List Event} (h : RecvShape tr) :
    ∀ i j m m', i < j → tr.get? i = some (Event.recv m) →
      tr.get? j = some (Event.recv m') →
      ∃ l, i < l ∧ l < j ∧ tr.get? l = some (Event.printMsg m) := by
  induction h with
  | nil => intro i j m m' hij hi hj; simp at hi
  | part1 m0 =>
    intro i j m m' hij hi hj
    rcases i with _ | i
    · rcases j with _ | j
      · omega
      · simp at hj
    · simp at hi
  | iter m0 tr0 h0 ih =>
    intro i j m m' hij hi hj
    rcases i with _ | _ | i
    · simp only [List.get?_cons_zero, Option.some.injEq] at hi
      injection hi with hm
      subst hm
      rcases j with _ | _ | j
      · omega
      · simp at hj
      · exact ⟨1, by omega, by omega, rfl⟩
    · simp at hi
    · rcases j with _ | _ | j
      · omega
      · omega
      · simp only [List.get?_cons_succ] at hi hj
        obtain ⟨l, h1, h2, h3⟩ := ih i j m m' (by omega) hi hj
        exact ⟨l + 2, by omega, by omega, by simpa using h3⟩

/-- C2: in `print.py`, every message obtained from `bus.recv` is printed
before the next `bus.recv` is issued: between any two receive events of the
loop's trace there is a print of the earlier received message, so no frame
is buffered, dropped or reordered. -/
theorem recv_printed_before_next (oracle : Nat → ActionResult) (stream : Nat → Message)
    (fuel k i j : Nat) (m m' : Message) (hij : i < j)
    (hi : ((recvIter oracle stream fuel k).1).get? i = some (Event.recv m))
    (hj : ((recvIter oracle stream fuel k).1).get? j = some (Event.recv m')) :
    ∃ l, i < l ∧ l < j ∧
      ((recvIter oracle stream fuel k).1).get? l = some (Event.printMsg m) :=
  recvShape_between (recvIter_shape oracle stream fuel k) i j m m' hij hi hj

theorem recv_printed_before_next_witness :
    ∃ l, 0 < l ∧ l < 2 ∧
      ((recvIter (fun _ => ActionResult.ok) (fun _ => sendMsg) 2 1).1).get? l =
        some (Event.printMsg sendMsg) :=
  recv_printed_before_next (fun _ => ActionResult.ok) (fun _ => sendMsg) 2 1 0 2
    sendMsg sendMsg (by omega) (by decide) (by decide)

/-- C3: for either script, when the bus constructor succeeded and a
`KeyboardInterrupt` is delivered at any point inside the loop, the run exits
after the interrupt with `bus.shutdown` as its very last event and with no
shutdown anywhere earlier: exactly one release, and no send or receive after
the interrupt. -/
theorem interrupt_shutdown_once (oracle : Nat → ActionResult) (stream : Nat → Message)
    (fuel : Nat) (h0 : oracle 0 = ActionResult.ok) :
    ((sendIter oracle fuel 1).2 = LoopOutcome.interrupted →
      (sendRun oracle fuel).2 = Outcome.exitAfterKbd ∧
      ((sendRun oracle fuel).1).getLast? = some Event.shutdown ∧
      Event.shutdown ∉ ((sendRun oracle fuel).1).dropLast) ∧
    ((recvIter oracle stream fuel 1).2 = LoopOutcome.interrupted →
      (printRun oracle stream fuel).2 = Outcome.exitAfterKbd ∧
      ((printRun oracle stream fuel).1).getLast? = some Event.shutdown ∧
      Event.shutdown ∉ ((printRun oracle stream fuel).1).dropLast) := by
  constructor
  · intro hl
    have htr : (sendRun oracle fuel).1 =
        (Event.busConstruct "socketcand" "192.168.0.16" 29536 "can0" ::
          (sendIter oracle fuel 1).1) ++ [Event.shutdown] := by
      rw [sendRun_interrupted oracle fuel h0 hl, List.cons_append]
    have hout : (sendRun oracle fuel).2 = Outcome.exitAfterKbd := by
      rw [sendRun_interrupted oracle fuel h0 hl]
    refine ⟨hout, ?_, ?_⟩
    · rw [htr, List.getLast?_concat]
    · rw [htr, List.dropLast_concat]
      intro hmem
      rcases List.mem_cons.1 hmem with h | h
      · exact Event.noConfusion h
      · exact sendIter_no_shutdown oracle fuel 1 h
  · intro hl
    have htr : (printRun oracle stream fuel).1 =
        (Event.busConstruct "socketcand" "192.168.0.16" 29536 "can0" ::
          (recvIter oracle stream fuel 1).1) ++ [Event.shutdown] := by
      rw [printRun_interrupted oracle stream fuel h0 hl, List.cons_append]
    have hout : (printRun oracle stream fuel).2 = Outcome.exitAfterKbd := by
      rw [printRun_interrupted oracle stream fuel h0 hl]
    refine ⟨hout, ?_, ?_⟩
    · rw [htr, List.getLast?_concat]
    · rw [htr, List.dropLast_concat]
      intro hmem
      rcases List.mem_cons.1 hmem with h | h
      · exact Event.noConfusion h
      · exact recvIter_no_shutdown oracle stream fuel 1 h

theorem interrupt_shutdown_once_witness :
    ((sendRun (fun k => if k = 0 then ActionResult.ok else ActionResult.kbdInt) 1).2 =
        Outcome.exitAfterKbd ∧
      (((sendRun (fun k => if k = 0 then ActionResult.ok else ActionResult.kbdInt) 1).1)).getLast? =
        some Event.shutdown ∧
      Event.shutdown ∉
        (((sendRun (fun k => if k = 0 then ActionResult.ok else ActionResult.kbdInt) 1).1)).dropLast) ∧
    ((printRun (fun k => if k = 0 then ActionResult.ok else ActionResult.kbdInt)
        (fun _ => sendMsg) 1).2 = Outcome.exitAfterKbd ∧
      (((printRun (fun k => if k = 0 then ActionResult.ok else ActionResult.kbdInt)
        (fun _ => sendMsg) 1).1)).getLast? = some Event.shutdown ∧
      Event.shutdown ∉
        (((printRun (fun k => if k = 0 then ActionResult.ok else ActionResult.kbdInt)
          (fun _ => sendMsg) 1).1)).dropLast) :=
  ⟨(interrupt_shutdown_once (fun k => if k = 0 then ActionResult.ok else ActionResult.kbdInt)
      (fun _ => sendMsg) 1 (by decide)).1 (by decide),
    (interrupt_shutdown_once (fun k => if k = 0 then ActionResult.ok else ActionResult.kbdInt)
      (fun _ => sendMsg) 1 (by decide)).2 (by decide)⟩

/-- C4: neither script catches anything but the interrupt: an exception
other than `KeyboardInterrupt`, whether raised by the bus constructor or by
any action inside the loop, leaves the run with an unhandled exception and
no shutdown is performed. -/
theorem other_exception_propagates (oracle : Nat → ActionResult) (stream : Nat → Message)
    (fuel : Nat) :
    (oracle 0 = ActionResult.otherExn →
      (sendRun oracle fuel).2 = Outcome.unhandledExn ∧
      (printRun oracle stream fuel).2 = Outcome.unhandledExn) ∧
    (oracle 0 = ActionResult.ok →
      ((sendIter oracle fuel 1).2 = LoopOutcome.exn →
        (sendRun oracle fuel).2 = Outcome.unhandledExn ∧
        Event.shutdown ∉ (sendRun oracle fuel).1) ∧
      ((recvIter oracle stream fuel 1).2 = LoopOutcome.exn →
        (printRun oracle stream fuel).2 = Outcome.unhandledExn ∧
        Event.shutdown ∉ (printRun oracle stream fuel).1)) := by
  constructor
  · intro h0
    rw [sendRun_exn0 oracle fuel h0, printRun_exn0 oracle stream fuel h0]
    exact ⟨rfl, rfl⟩
  · intro h0
    constructor
    · intro hl
      rw [sendRun_exn oracle fuel h0 hl]
      refine ⟨rfl, ?_⟩
      intro hmem
      rcases List.mem_cons.1 hmem with h | h
      · exact Event.noConfusion h
      · exact sendIter_no_shutdown oracle fuel 1 h
    · intro hl
      rw [printRun_exn oracle stream fuel h0 hl]
      refine ⟨rfl, ?_⟩
      intro hmem
      rcases List.mem_cons.1 hmem with h | h
      · exact Event.noConfusion h
      · exact recvIter_no_shutdown oracle stream fuel 1 h

theorem other_exception_propagates_witness :
    ((sendRun (fun _ => ActionResult.otherExn) 1).2 = Outcome.unhandledExn ∧
      (printRun (fun _ => ActionResult.otherExn) (fun _ => sendMsg) 1).2 =
        Outcome.unhandledExn) ∧
    ((sendRun (fun k => if k = 0 then ActionResult.ok else ActionResult.otherExn) 1).2 =
        Outcome.unhandledExn ∧
      Event.shutdown ∉
        (sendRun (fun k => if k = 0 then ActionResult.ok else ActionResult.otherExn) 1).1) ∧
    ((printRun (fun k => if k = 0 then ActionResult.ok else ActionResult.otherExn)
        (fun _ => sendMsg) 1).2 = Outcome.unhandledExn ∧
      Event.shutdown ∉
        (printRun (fun k => if k = 0 then ActionResult.ok else ActionResult.otherExn)
          (fun _ => sendMsg) 1).1) :=
  ⟨(other_exception_propagates (fun _ => ActionResult.otherExn) (fun _ => sendMsg) 1).1 rfl,
    ((other_exception_propagates
        (fun k => if k = 0 then ActionResult.ok else ActionResult.otherExn)
        (fun _ => sendMsg) 1).2 (by decide)).1 (by decide),
    ((other_exception_propagates
        (fun k => if k = 0 then ActionResult.ok else ActionResult.otherExn)
        (fun _ => sendMsg) 1).2 (by decide)).2 (by decide)⟩

/-- C6: assuming the frame model's payload bound for every inbound message
of the stream, no frame either script sends or prints violates the bound of
64 bytes with the FD flag or 8 bytes without it, and every frame `send.py`
transmits has the FD flag set and a 4-byte payload. -/
theorem payload_within_bounds (oracle : Nat → ActionResult) (stream : Nat → Message)
    (fuel : Nat) (hstream : ∀ j, ValidPayload (stream j)) (m : Message) :
    ((Event.send m ∈ (sendRun oracle fuel).1 ∨ Event.printMsg m ∈ (sendRun oracle fuel).1 ∨
        Event.send m ∈ (printRun oracle stream fuel).1 ∨
        Event.printMsg m ∈ (printRun oracle stream fuel).1) →
      ValidPayload m) ∧
    (Event.send m ∈ (sendRun oracle fuel).1 → m.is_fd = true ∧ m.data.length = 4) := by
  have hsend : Event.send m ∈ (sendRun oracle fuel).1 → m = sendMsg := by
    intro hm
    rcases sendRun_mem oracle fuel _ hm with h | h | h
    · exact Event.noConfusion h
    · exact sendIter_send_eq oracle fuel 1 m h
    · exact Event.noConfusion h
  constructor
  · intro hm
    rcases hm with h | h | h | h
    · rw [hsend h]; decide
    · rcases sendRun_mem oracle fuel _ h with h' | h' | h'
      · exact Event.noConfusion h'
      · rw [sendIter_print_eq oracle fuel 1 m h']; decide
      · exact Event.noConfusion h'
    · rcases printRun_mem oracle stream fuel _ h with h' | h' | h'
      · exact Event.noConfusion h'
      · exact absurd h' (recvIter_no_send oracle stream fuel 1 m)
      · exact Event.noConfusion h'
    · rcases printRun_mem oracle stream fuel _ h with h' | h' | h'
      · exact Event.noConfusion h'
      · obtain ⟨j, hj⟩ := recvIter_print_stream oracle stream fuel 1 m h'
        rw [hj]; exact hstream j
      · exact Event.noConfusion h'
  · intro hm
    rw [hsend hm]
    exact ⟨rfl, rfl⟩

theorem payload_within_bounds_witness :
    ValidPayload sendMsg ∧ sendMsg.is_fd = true ∧ sendMsg.data.length = 4 :=
  ⟨(payload_within_bounds (fun _ => ActionResult.ok) (fun _ => sendMsg) 1
      (fun _ => (by decide : ValidPayload sendMsg)) sendMsg).1 (Or.inl (by decide)),
    (payload_within_bounds (fun _ => ActionResult.ok) (fun _ => sendMsg) 1
      (fun _ => (by decide : ValidPayload sendMsg)) sendMsg).2 (by decide)⟩

/-- C7: every bus construction performed by either script carries exactly
interface kind `socketcand`, host `192.168.0.16`, port `29536` and channel
`can0`, whatever the oracle, stream or fuel: the configuration is fixed by
the source, with no argument parsing, identical on every run and identical
between the two scripts. -/
theorem bus_config_fixed (oracle : Nat → ActionResult) (stream : Nat → Message) (fuel : Nat)
    (i h : String) (p : Nat) (c : String)
    (hm : Event.busConstruct i h p c ∈ (sendRun oracle fuel).1 ∨
      Event.busConstruct i h p c ∈ (printRun oracle stream fuel).1) :
    i = "socketcand" ∧ h = "192.168.0.16" ∧ p = 29536 ∧ c = "can0" := by
  rcases hm with hm | hm
  · rcases sendRun_mem oracle fuel _ hm with h' | h' | h'
    · injection h' with h1 h2 h3 h4
      exact ⟨h1, h2, h3, h4⟩
    · exact absurd h' (sendIter_no_bus oracle fuel 1 i h p c)
    · exact Event.noConfusion h'
  · rcases printRun_mem oracle stream fuel _ hm with h' | h' | h'
    · injection h' with h1 h2 h3 h4
      exact ⟨h1, h2, h3, h4⟩
    · exact absurd h' (recvIter_no_bus oracle stream fuel 1 i h p c)
    · exact Event.noConfusion h'

theorem bus_config_fixed_witness :
    "socketcand" = "socketcand" ∧ "192.168.0.16" = "192.168.0.16" ∧
      (29536 : Nat) = 29536 ∧ "can0" = "can0" :=
  bus_config_fixed (fun _ => ActionResult.ok) (fun _ => sendMsg) 1
    "socketcand" "192.168.0.16" 29536 "can0" (Or.inl (by decide))

/-- C8: neither loop ever terminates normally: a run that is not still
looping must have had some action raise an exception or interrupt; with an
oracle on which every action completes, both scripts are still running at
every fuel bound. -/
theorem loop_no_normal_exit (oracle : Nat → ActionResult) (stream : Nat → Message)
    (fuel : Nat) :
    ((sendRun oracle fuel).2 ≠ Outcome.running → ∃ j, oracle j ≠ ActionResult.ok) ∧
    ((printRun oracle stream fuel).2 ≠ Outcome.running → ∃ j, oracle j ≠ ActionResult.ok) := by
  constructor
  · intro hne
    by_contra hall
    push_neg at hall
    exact hne (by rw [sendRun_outOfFuel oracle fuel (hall 0) (sendIter_allOk oracle fuel 1 hall)])
  · intro hne
    by_contra hall
    push_neg at hall
    exact hne (by
      rw [printRun_outOfFuel oracle stream fuel (hall 0)
        (recvIter_allOk oracle stream fuel 1 hall)])

theorem loop_no_normal_exit_witness :
    (∃ j, (fun _ : Nat => ActionResult.kbdInt) j ≠ ActionResult.ok) ∧
      ∃ j, (fun _ : Nat => ActionResult.kbdInt) j ≠ ActionResult.ok :=
  ⟨(loop_no_normal_exit (fun _ => ActionResult.kbdInt) (fun _ => sendMsg) 1).1 (by decide),
    (loop_no_normal_exit (fun _ => ActionResult.kbdInt) (fun _ => sendMsg) 1).2 (by decide)⟩

/-- C9: `bus.shutdown` runs exactly when the bus constructor succeeded and a
`KeyboardInterrupt` was raised inside the `try` block; any other exception,
or an interrupt delivered during bus construction, leaves the bus never
released by the script. -/
theorem shutdown_iff_interrupted (oracle : Nat → ActionResult) (stream : Nat → Message)
    (fuel : Nat) :
    (Event.shutdown ∈ (sendRun oracle fuel).1 ↔
      oracle 0 = ActionResult.ok ∧ (sendIter oracle fuel 1).2 = LoopOutcome.interrupted) ∧
    (Event.shutdown ∈ (printRun oracle stream fuel).1 ↔
      oracle 0 = ActionResult.ok ∧
        (recvIter oracle stream fuel 1).2 = LoopOutcome.interrupted) := by
  constructor
  · constructor
    · intro hm
      cases h0 : oracle 0
      case kbdInt => rw [sendRun_kbd oracle fuel h0] at hm; simp at hm
      case otherExn => rw [sendRun_exn0 oracle fuel h0] at hm; simp at hm
      case ok =>
        refine ⟨rfl, ?_⟩
        cases hl : (sendIter oracle fuel 1).2
        case interrupted => rfl
        case exn =>
          rw [sendRun_exn oracle fuel h0 hl] at hm
          rcases List.mem_cons.1 hm with h | h
          · exact Event.noConfusion h
          · exact absurd h (sendIter_no_shutdown oracle fuel 1)
        case outOfFuel =>
          rw [sendRun_outOfFuel oracle fuel h0 hl] at hm
          rcases List.mem_cons.1 hm with h | h
          · exact Event.noConfusion h
          · exact absurd h (sendIter_no_shutdown oracle fuel 1)
    · rintro ⟨h0, hl⟩
      have htr : (sendRun oracle fuel).1 =
          Event.busConstruct "socketcand" "192.168.0.16" 29536 "can0" ::
            (sendIter oracle fuel 1).1 ++ [Event.shutdown] := by
        rw [sendRun_interrupted oracle fuel h0 hl]
      rw [htr]
      exact List.mem_cons_of_mem _ (List.mem_append_right _ (List.mem_singleton_self _))
  · constructor
    · intro hm
      cases h0 : oracle 0
      case kbdInt => rw [printRun_kbd oracle stream fuel h0] at hm; simp at hm
      case otherExn => rw [printRun_exn0 oracle stream fuel h0] at hm; simp at hm
      case ok =>
        refine ⟨rfl, ?_⟩
        cases hl : (recvIter oracle stream fuel 1).2
        case interrupted => rfl
        case exn =>
          rw [printRun_exn oracle stream fuel h0 hl] at hm
          rcases List.mem_cons.1 hm with h | h
          · exact Event.noConfusion h
          · exact absurd h (recvIter_no_shutdown oracle stream fuel 1)
        case outOfFuel =>
          rw [printRun_outOfFuel oracle stream fuel h0 hl] at hm
          rcases List.mem_cons.1 hm with h | h
          · exact Event.noConfusion h
          · exact absurd h (recvIter_no_shutdown oracle stream fuel 1)
    · rintro ⟨h0, hl⟩
      have htr : (printRun oracle stream fuel).1 =
          Event.busConstruct "socketcand" "192.168.0.16" 29536 "can0" ::
            (recvIter oracle stream fuel 1).1 ++ [Event.shutdown] := by
        rw [printRun_interrupted oracle stream fuel h0 hl]
      rw [htr]
      exact List.mem_cons_of_mem _ (List.mem_append_right _ (List.mem_singleton_self _))

example :
    sendRun (fun _ => ActionResult.ok) 1 =
      ([Event.busConstruct "socketcand" "192.168.0.16" 29536 "can0",
        Event.construct sendMsg, Event.printMsg sendMsg, Event.send sendMsg, Event.sleep 1],
        Outcome.running) := by decide

example :
    printRun (fun k => if k = 3 then ActionResult.kbdInt else ActionResult.ok)
      (fun _ => sendMsg) 5 =
      ([Event.busConstruct "socketcand" "192.168.0.16" 29536 "can0",
        Event.recv sendMsg, Event.printMsg sendMsg, Event.shutdown],
        Outcome.exitAfterKbd) := by decide

end Socketcand
